import Mathlib

/-!
Shallow embedding of parts of the libobs-rs repository
(libobs-simple and libobs-wrapper crates), together with proofs that
settle the specification claims about them.

Conventions of the embedding:
* Rust `Result<T, E>` becomes `Except E T`; fallible operations return
  `Except`.
* Raw pointers become `Nat` values, with `0` standing for the null
  pointer.
* Effects of code that lives outside the translated files (the
  underlying platform-specific builders, the Windows DPI query, the
  dynamic library loader, the filesystem) are passed in as explicit
  parameters, so the functions here embed exactly the dispatch and
  control flow of the translated Rust.
-/

namespace LibObs

/-- The error enum of the wrapper, restricted to the variants used by the
translated code (`ObsError` in libobs-wrapper). -/
inductive ObsError where
  | PlatformInitError (msg : String)
  | NullPointer (msg : Option String)
  | InvalidOperation (msg : String)
  | OtherError (msg : String)
deriving DecidableEq

/-- `PlatformType` from libobs-wrapper: the display-server platform reported
by the runtime. -/
inductive PlatformType where
  | X11
  | Wayland
  | Invalid
deriving DecidableEq

/-- The private sum type `Either<A, B>` from
libobs-simple/src/sources/linux/either.rs. -/
inductive Either (α β : Type) where
  | left (a : α)
  | right (b : β)
deriving DecidableEq

/-- Whether an `Either` holds its `Left` variant (the X11 branch in the
Linux general capture builders). -/
def Either.isLeftTag {α β : Type} : Either α β → Bool
  | .left _ => true
  | .right _ => false

/-! ## Linux general screen capture builder

From libobs-simple/src/sources/linux/sources/linux_general_screen_capture.rs.
The underlying `X11CaptureSourceBuilder` and
`PipeWireScreenCaptureSourceBuilder` live outside the translated files, so
they are type parameters `X` and `P`, and their own setters are passed in
as function parameters.  The code below embeds exactly the `match` dispatch
of the Rust builder. -/

structure LinuxGeneralScreenCaptureBuilder (X P : Type) where
  underlying_builder : Either X P
deriving DecidableEq

namespace LinuxGeneralScreenCaptureBuilder

variable {X P : Type}

/-- `LinuxGeneralScreenCaptureBuilder::new`.  The platform reported by
`runtime.get_platform()` and the results of the underlying builders'
constructors are parameters. -/
def new (platform : PlatformType) (newX : Except ObsError X) (newP : Except ObsError P) :
    Except ObsError (LinuxGeneralScreenCaptureBuilder X P) :=
  match platform with
  | .X11 =>
    match newX with
    | .ok b => .ok ⟨.left b⟩
    | .error e => .error e
  | .Wayland =>
    match newP with
    | .ok b => .ok ⟨.right b⟩
    | .error e => .error e
  | .Invalid =>
    .error (.PlatformInitError "No platform could be found to create the source on.")

/-- `set_restore_token` (PipeWire only): dispatches to the PipeWire builder's
setter on `Right`, leaves an X11 builder untouched. -/
def set_restore_token (setP : P → String → P)
    (b : LinuxGeneralScreenCaptureBuilder X P) (token : String) :
    LinuxGeneralScreenCaptureBuilder X P :=
  match b.underlying_builder with
  | .left builder => ⟨.left builder⟩
  | .right builder => ⟨.right (setP builder token)⟩

/-- `set_show_cursor` (all display servers). -/
def set_show_cursor (setX : X → Bool → X) (setP : P → Bool → P)
    (b : LinuxGeneralScreenCaptureBuilder X P) (show_ : Bool) :
    LinuxGeneralScreenCaptureBuilder X P :=
  match b.underlying_builder with
  | .left builder => ⟨.left (setX builder show_)⟩
  | .right builder => ⟨.right (setP builder show_)⟩

/-- `set_screen` (X11 only). -/
def set_screen (setX : X → Int → X)
    (b : LinuxGeneralScreenCaptureBuilder X P) (screen : Int) :
    LinuxGeneralScreenCaptureBuilder X P :=
  match b.underlying_builder with
  | .left builder => ⟨.left (setX builder screen)⟩
  | .right builder => ⟨.right builder⟩

/-- `set_advanced` (X11 only). -/
def set_advanced (setX : X → Bool → X)
    (b : LinuxGeneralScreenCaptureBuilder X P) (advanced : Bool) :
    LinuxGeneralScreenCaptureBuilder X P :=
  match b.underlying_builder with
  | .left builder => ⟨.left (setX builder advanced)⟩
  | .right builder => ⟨.right builder⟩

/-- `set_server` (X11 only). -/
def set_server (setX : X → String → X)
    (b : LinuxGeneralScreenCaptureBuilder X P) (server : String) :
    LinuxGeneralScreenCaptureBuilder X P :=
  match b.underlying_builder with
  | .left builder => ⟨.left (setX builder server)⟩
  | .right builder => ⟨.right builder⟩

/-- `set_cut_top` (X11 only). -/
def set_cut_top (setX : X → Int → X)
    (b : LinuxGeneralScreenCaptureBuilder X P) (cut_top : Int) :
    LinuxGeneralScreenCaptureBuilder X P :=
  match b.underlying_builder with
  | .left builder => ⟨.left (setX builder cut_top)⟩
  | .right builder => ⟨.right builder⟩

/-- `set_cut_left` (X11 only). -/
def set_cut_left (setX : X → Int → X)
    (b : LinuxGeneralScreenCaptureBuilder X P) (cut_left : Int) :
    LinuxGeneralScreenCaptureBuilder X P :=
  match b.underlying_builder with
  | .left builder => ⟨.left (setX builder cut_left)⟩
  | .right builder => ⟨.right builder⟩

/-- `set_cut_right` (X11 only). -/
def set_cut_right (setX : X → Int → X)
    (b : LinuxGeneralScreenCaptureBuilder X P) (cut_right : Int) :
    LinuxGeneralScreenCaptureBuilder X P :=
  match b.underlying_builder with
  | .left builder => ⟨.left (setX builder cut_right)⟩
  | .right builder => ⟨.right builder⟩

/-- `set_cut_bot` (X11 only). -/
def set_cut_bot (setX : X → Int → X)
    (b : LinuxGeneralScreenCaptureBuilder X P) (cut_bot : Int) :
    LinuxGeneralScreenCaptureBuilder X P :=
  match b.underlying_builder with
  | .left builder => ⟨.left (setX builder cut_bot)⟩
  | .right builder => ⟨.right builder⟩

/-- `capture_type_name`: reports X11 for a `Left` builder and Wayland for a
`Right` builder, reading only the stored variant. -/
def capture_type_name (b : LinuxGeneralScreenCaptureBuilder X P) : PlatformType :=
  match b.underlying_builder with
  | .left _ => PlatformType.X11
  | .right _ => PlatformType.Wayland

end LinuxGeneralScreenCaptureBuilder

/-! ## Linux general window capture builder

From libobs-simple/src/sources/linux/sources/linux_general_window_capture.rs.
`X` stands for `XCompositeInputSourceBuilder`, `P` for
`PipeWireWindowCaptureSourceBuilder`. -/

structure LinuxGeneralWindowCaptureBuilder (X P : Type) where
  underlying_builder : Either X P
deriving DecidableEq

namespace LinuxGeneralWindowCaptureBuilder

variable {X P : Type}

/-- `LinuxGeneralWindowCaptureBuilder::new`. -/
def new (platform : PlatformType) (newX : Except ObsError X) (newP : Except ObsError P) :
    Except ObsError (LinuxGeneralWindowCaptureBuilder X P) :=
  match platform with
  | .X11 =>
    match newX with
    | .ok b => .ok ⟨.left b⟩
    | .error e => .error e
  | .Wayland =>
    match newP with
    | .ok b => .ok ⟨.right b⟩
    | .error e => .error e
  | .Invalid =>
    .error (.PlatformInitError "No platform could be found to create the source on.")

/-- `set_restore_token` (PipeWire only). -/
def set_restore_token (setP : P → String → P)
    (b : LinuxGeneralWindowCaptureBuilder X P) (token : String) :
    LinuxGeneralWindowCaptureBuilder X P :=
  match b.underlying_builder with
  | .left builder => ⟨.left builder⟩
  | .right builder => ⟨.right (setP builder token)⟩

/-- `set_show_cursor` (all display servers). -/
def set_show_cursor (setX : X → Bool → X) (setP : P → Bool → P)
    (b : LinuxGeneralWindowCaptureBuilder X P) (show_ : Bool) :
    LinuxGeneralWindowCaptureBuilder X P :=
  match b.underlying_builder with
  | .left builder => ⟨.left (setX builder show_)⟩
  | .right builder => ⟨.right (setP builder show_)⟩

/-- `set_capture_window` (XComposite/X11 only). -/
def set_capture_window (setX : X → String → X)
    (b : LinuxGeneralWindowCaptureBuilder X P) (capture_window : String) :
    LinuxGeneralWindowCaptureBuilder X P :=
  match b.underlying_builder with
  | .left builder => ⟨.left (setX builder capture_window)⟩
  | .right builder => ⟨.right builder⟩

/-- `set_cut_top` (XComposite/X11 only). -/
def set_cut_top (setX : X → Int → X)
    (b : LinuxGeneralWindowCaptureBuilder X P) (cut_top : Int) :
    LinuxGeneralWindowCaptureBuilder X P :=
  match b.underlying_builder with
  | .left builder => ⟨.left (setX builder cut_top)⟩
  | .right builder => ⟨.right builder⟩

/-- `set_cut_left` (XComposite/X11 only). -/
def set_cut_left (setX : X → Int → X)
    (b : LinuxGeneralWindowCaptureBuilder X P) (cut_left : Int) :
    LinuxGeneralWindowCaptureBuilder X P :=
  match b.underlying_builder with
  | .left builder => ⟨.left (setX builder cut_left)⟩
  | .right builder => ⟨.right builder⟩

/-- `set_cut_right` (XComposite/X11 only). -/
def set_cut_right (setX : X → Int → X)
    (b : LinuxGeneralWindowCaptureBuilder X P) (cut_right : Int) :
    LinuxGeneralWindowCaptureBuilder X P :=
  match b.underlying_builder with
  | .left builder => ⟨.left (setX builder cut_right)⟩
  | .right builder => ⟨.right builder⟩

/-- `set_cut_bot` (XComposite/X11 only). -/
def set_cut_bot (setX : X → Int → X)
    (b : LinuxGeneralWindowCaptureBuilder X P) (cut_bot : Int) :
    LinuxGeneralWindowCaptureBuilder X P :=
  match b.underlying_builder with
  | .left builder => ⟨.left (setX builder cut_bot)⟩
  | .right builder => ⟨.right builder⟩

/-- `set_include_border` (XComposite/X11 only). -/
def set_include_border (setX : X → Bool → X)
    (b : LinuxGeneralWindowCaptureBuilder X P) (include_border : Bool) :
    LinuxGeneralWindowCaptureBuilder X P :=
  match b.underlying_builder with
  | .left builder => ⟨.left (setX builder include_border)⟩
  | .right builder => ⟨.right builder⟩

/-- `set_exclude_alpha` (XComposite/X11 only). -/
def set_exclude_alpha (setX : X → Bool → X)
    (b : LinuxGeneralWindowCaptureBuilder X P) (exclude_alpha : Bool) :
    LinuxGeneralWindowCaptureBuilder X P :=
  match b.underlying_builder with
  | .left builder => ⟨.left (setX builder exclude_alpha)⟩
  | .right builder => ⟨.right builder⟩

end LinuxGeneralWindowCaptureBuilder

/-! ## Windows monitor capture (libobs-simple, monitor_capture.rs)

`is_thread_dpi_unaware` runs a Windows API query on the executor thread via
`run_with_obs`, which can itself fail; its outcome is the parameter
`dpiQuery : Except ObsError Bool`.  `ObsDataUpdater::set_int_ref` (defined in
libobs-wrapper, outside the translated files) records an integer setting; it
is embedded as appending the key/value pair to the updater's settings
list. -/

/-- The capture-method enum used by the monitor capture source (mirrors
`ObsDisplayCaptureMethod` of the wrapper, discriminants 0, 1, 2). -/
inductive ObsDisplayCaptureMethod where
  | MethodAuto
  | MethodDXGI
  | MethodWgc
deriving DecidableEq

/-- The `to_i32` value of a capture method (then widened to i64 by the
caller). -/
def ObsDisplayCaptureMethod.toI64 : ObsDisplayCaptureMethod → Int
  | .MethodAuto => 0
  | .MethodDXGI => 1
  | .MethodWgc => 2

/-- The updater for a monitor capture source, reduced to the settings it
records via `set_int_ref`. -/
structure MonitorCaptureSourceUpdater where
  settings : List (String × Int)
deriving DecidableEq

/-- `MonitorCaptureSourceUpdater::set_capture_method`: propagates a failed
DPI query, rejects DXGI on a DPI-unaware thread with `InvalidOperation`
before touching the settings, and otherwise records the method. -/
def MonitorCaptureSourceUpdater.set_capture_method
    (dpiQuery : Except ObsError Bool) (u : MonitorCaptureSourceUpdater)
    (method : ObsDisplayCaptureMethod) : Except ObsError MonitorCaptureSourceUpdater :=
  match dpiQuery with
  | .error e => .error e
  | .ok unaware =>
    if unaware && method == ObsDisplayCaptureMethod.MethodDXGI then
      .error (.InvalidOperation
        "Cannot use DXGI capture method when the current thread is DPI unaware.")
    else
      .ok { settings := u.settings ++ [("method", method.toI64)] }

/-- The builder state relevant to the DPI guard: the stored
`capture_method` field. -/
structure MonitorCaptureSourceBuilder where
  capture_method : Option ObsDisplayCaptureMethod
deriving DecidableEq

/-- `MonitorCaptureSourceBuilder::set_capture_method` stores the method in
the struct (the source is created with WGC first and updated later). -/
def MonitorCaptureSourceBuilder.set_capture_method
    (_ : MonitorCaptureSourceBuilder) (method : ObsDisplayCaptureMethod) :
    MonitorCaptureSourceBuilder :=
  { capture_method := some method }

/-- `MonitorCaptureSourceBuilder::build` (the `ObsSourceBuilder` impl): the
DPI guard runs before `object_build`/`new_from_info`, whose combined outcome
is the parameter `buildSource`. -/
def MonitorCaptureSourceBuilder.build {S : Type} (b : MonitorCaptureSourceBuilder)
    (dpiQuery : Except ObsError Bool) (buildSource : Except ObsError S) :
    Except ObsError S :=
  match dpiQuery with
  | .error e => .error e
  | .ok unaware =>
    if unaware && b.capture_method == some ObsDisplayCaptureMethod.MethodDXGI then
      .error (.InvalidOperation
        "Cannot use DXGI capture method when the current thread is DPI unaware.")
    else
      buildSource

/-! ## Windows one-time DPI-awareness setup (libobs-wrapper, initialization/windows.rs)

`HAS_SET_DPI_AWARENESS` is a process-wide atomic flag updated by a SeqCst
compare-exchange; since the compare-exchange is atomic, any interleaving of
concurrent calls serializes into a sequence of flag transitions, which is
what `runEnableCalls` folds over.  `SetThreadDpiAwarenessContext` returns
the previous context, modelled as `Option Int` (`none` = the invalid
context). -/

/-- `PlatformSpecificGuard`: remembers the DPI context to restore, if any. -/
structure PlatformSpecificGuard where
  previous_dpi_context : Option Int
deriving DecidableEq

/-- One call to `PlatformSpecificGuard::enable_dpi_awareness`: its returned
value and whether this call performed the `SetThreadDpiAwarenessContext`
action. -/
structure DpiCallOutcome where
  result : Except ObsError PlatformSpecificGuard
  performedSet : Bool

/-- `enable_dpi_awareness`, as a transition on the atomic flag.  If the
compare-exchange fails (flag already true) the call performs nothing and
returns a guard with no saved context; otherwise it performs the set (whose
returned previous context is `setPrev`, `none` when invalid) and flips the
flag.  Every branch returns `Ok`. -/
def enable_dpi_awareness (hasSetFlag : Bool) (setPrev : Option Int) :
    DpiCallOutcome × Bool :=
  if hasSetFlag then
    ({ result := .ok ⟨none⟩, performedSet := false }, true)
  else
    ({ result := .ok ⟨setPrev⟩, performedSet := true }, true)

/-- `unset_dpi_awareness`: whether the guard's restore step performs a
`SetThreadDpiAwarenessContext` call (it is a no-op when no previous context
was saved). -/
def unset_dpi_awareness (g : PlatformSpecificGuard) : Bool :=
  g.previous_dpi_context.isSome

/-- A sequence of serialized `enable_dpi_awareness` calls threading the
process-wide flag; each list element is the previous context that a
performed set would observe. -/
def runEnableCalls (calls : List (Option Int)) (hasSetFlag : Bool) :
    List DpiCallOutcome × Bool :=
  match calls with
  | [] => ([], hasSetFlag)
  | p :: ps =>
    let step := enable_dpi_awareness hasSetFlag p
    let rest := runEnableCalls ps step.2
    (step.1 :: rest.1, rest.2)

/-- The outcome every call after the first observes: `Ok` with a guard
holding no saved context, and no set performed. -/
def dpiAlreadySetOutcome : DpiCallOutcome :=
  { result := .ok ⟨none⟩, performedSet := false }

/-! ## Glib loop teardown (libobs-wrapper, utils/linux/mod.rs) -/

/-- What one run of `impl Drop for LinuxGlibLoop` does: whether `quit` was
called, whether a join error was logged, and the panic payload re-raised by
`r.unwrap()` if any. -/
structure GlibDropOutcome where
  quitCalled : Bool
  loggedJoinPanic : Bool
  propagatedPanic : Option String
deriving DecidableEq

/-- The `Drop` impl of `LinuxGlibLoop`.  `handle` is the taken
`JoinHandle` (`none` when absent) whose join result is `Except String Unit`
(`.error` = the worker thread panicked); `threadPanicking` is
`std::thread::panicking()` on the dropping thread. -/
def linuxGlibLoopDrop (isRunning : Bool) (handle : Option (Except String Unit))
    (threadPanicking : Bool) : GlibDropOutcome :=
  match handle with
  | none => { quitCalled := isRunning, loggedJoinPanic := false, propagatedPanic := none }
  | some joinResult =>
    if threadPanicking then
      match joinResult with
      | .error _ =>
        { quitCalled := isRunning, loggedJoinPanic := true, propagatedPanic := none }
      | .ok _ =>
        { quitCalled := isRunning, loggedJoinPanic := false, propagatedPanic := none }
    else
      match joinResult with
      | .error e =>
        { quitCalled := isRunning, loggedJoinPanic := false, propagatedPanic := some e }
      | .ok _ =>
        { quitCalled := isRunning, loggedJoinPanic := false, propagatedPanic := none }

/-! ## Audio fader and volmeter construction (libobs-wrapper, audio/) -/

/-- `ObsFader`: the wrapper around a non-null `obs_fader_t` pointer
(pointers are `Nat`, `0` = null). -/
structure ObsFader where
  fader : Nat
deriving DecidableEq

/-- `ObsFader::new`: `createResult` is the outcome of running
`obs_fader_create` on the executor thread (`run_with_obs` can fail; the
created pointer may be null). -/
def ObsFader.new (createResult : Except ObsError Nat) : Except ObsError ObsFader :=
  match createResult with
  | .error e => .error e
  | .ok ptr =>
    if ptr = 0 then .error (.NullPointer (some "Failed to create fader"))
    else .ok { fader := ptr }

/-- `ObsVolmeter`: the wrapper around a non-null `obs_volmeter_t`
pointer. -/
structure ObsVolmeter where
  volmeter : Nat
deriving DecidableEq

/-- `ObsVolmeter::new`, analogous to `ObsFader::new`. -/
def ObsVolmeter.new (createResult : Except ObsError Nat) : Except ObsError ObsVolmeter :=
  match createResult with
  | .error e => .error e
  | .ok ptr =>
    if ptr = 0 then .error (.NullPointer (some "Failed to create volmeter"))
    else .ok { volmeter := ptr }

/-! ## Optional Wayland symbol loader (libobs-wrapper, utils/linux/mod.rs)

The dynamic loader (`libloading`) is external; its behaviour on this system
is the parameter record `WaylandEnv`: `loadLibrary` opens a shared object by
name, `getSymbol` resolves a symbol in an opened library, and `callSym`
invokes a resolved function pointer on a proxy pointer (pointers are
`Int`). -/

structure WaylandEnv (Lib Sym : Type) where
  loadLibrary : String → Except String Lib
  getSymbol : Lib → String → Except String Sym
  callSym : Sym → Int → Int

/-- `wl_proxy_get_display`: tries `libwayland-client.so`, falls back to
`libwayland-client.so.0`, propagates a load failure with `?`, and calls the
resolved symbol only in the `Ok` branch of the symbol lookup. -/
def wl_proxy_get_display {Lib Sym : Type} (env : WaylandEnv Lib Sym) (proxy : Int) :
    Except String Int :=
  match
    ((match env.loadLibrary "libwayland-client.so" with
      | .ok l => .ok l
      | .error _ => env.loadLibrary "libwayland-client.so.0") : Except String Lib) with
  | .error e => .error e
  | .ok lib =>
    match env.getSymbol lib "wl_proxy_get_display" with
    | .ok f => .ok (env.callSym f proxy)
    | .error e => .error e

/-! ## Audio enum / u32 conversions (libobs-wrapper, audio/balance.rs and audio/monitor.rs)

The numeric constants mirror the bindgen constants
`obs_balance_type_OBS_BALANCE_TYPE_*` and
`obs_monitoring_type_OBS_MONITORING_TYPE_*` from the libobs C headers
(consecutive enum values starting at 0); u32 is embedded as `Nat`. -/

def OBS_BALANCE_TYPE_SINE_LAW : Nat := 0
def OBS_BALANCE_TYPE_SQUARE_LAW : Nat := 1
def OBS_BALANCE_TYPE_LINEAR : Nat := 2

/-- `ObsBalanceType` from audio/balance.rs. -/
inductive ObsBalanceType where
  | SineLaw
  | SquareLaw
  | Linear
deriving DecidableEq

/-- The `as u32` cast of `ObsBalanceType` (its `#[repr(u32)]`
discriminant). -/
def ObsBalanceType.toU32 : ObsBalanceType → Nat
  | .SineLaw => OBS_BALANCE_TYPE_SINE_LAW
  | .SquareLaw => OBS_BALANCE_TYPE_SQUARE_LAW
  | .Linear => OBS_BALANCE_TYPE_LINEAR

/-- `impl From<u32> for ObsBalanceType`: unmatched values map to
`SineLaw`. -/
def ObsBalanceType.fromU32 (val : Nat) : ObsBalanceType :=
  if val = OBS_BALANCE_TYPE_SINE_LAW then .SineLaw
  else if val = OBS_BALANCE_TYPE_SQUARE_LAW then .SquareLaw
  else if val = OBS_BALANCE_TYPE_LINEAR then .Linear
  else .SineLaw

def OBS_MONITORING_TYPE_NONE : Nat := 0
def OBS_MONITORING_TYPE_MONITOR_ONLY : Nat := 1
def OBS_MONITORING_TYPE_MONITOR_AND_OUTPUT : Nat := 2

/-- `ObsMonitoringType` from audio/monitor.rs. -/
inductive ObsMonitoringType where
  | None
  | MonitorOnly
  | MonitorAndOutput
deriving DecidableEq

/-- The `as u32` cast of `ObsMonitoringType`. -/
def ObsMonitoringType.toU32 : ObsMonitoringType → Nat
  | .None => OBS_MONITORING_TYPE_NONE
  | .MonitorOnly => OBS_MONITORING_TYPE_MONITOR_ONLY
  | .MonitorAndOutput => OBS_MONITORING_TYPE_MONITOR_AND_OUTPUT

/-- `impl From<u32> for ObsMonitoringType`: unmatched values map to
`None`. -/
def ObsMonitoringType.fromU32 (val : Nat) : ObsMonitoringType :=
  if val = OBS_MONITORING_TYPE_NONE then .None
  else if val = OBS_MONITORING_TYPE_MONITOR_ONLY then .MonitorOnly
  else if val = OBS_MONITORING_TYPE_MONITOR_AND_OUTPUT then .MonitorAndOutput
  else .None

/-! ## OpenGL library-name discovery (libobs-wrapper, utils/linux/mod.rs)

Paths are strings; `PathBuf::join` is modelled as concatenation with a `/`
separator, and the `ancestors()/file_name()` walk as splitting on `/`.
The filesystem is the pair of parameters `fsExists` and `fsRead` (a
failed `fs::read` is absorbed by `unwrap_or_default`, so `fsRead` returns
the byte list directly); `std::str::from_utf8` is the parameter `utf8`. -/

/-- Splitting a character list at every occurrence of `c` (the embedding of
Rust's `str::split` on a one-character pattern). -/
def splitOnChar (c : Char) : List Char → List (List Char)
  | [] => [[]]
  | x :: xs =>
    match splitOnChar c xs with
    | [] => [[]]
    | y :: ys => if x == c then [] :: y :: ys else (x :: y) :: ys

/-- Whether `pat` occurs as a contiguous sublist of the second argument. -/
def containsSublist (pat : List Char) : List Char → Bool
  | [] => pat.isEmpty
  | x :: xs => pat.isPrefixOf (x :: xs) || containsSublist pat xs

/-- Substring containment, the embedding of Rust `str::contains`. -/
def strContains (s pat : String) : Bool :=
  containsSublist pat.toList s.toList

/-- `PathBuf::join` for string paths. -/
def pathJoin (dir name : String) : String :=
  dir ++ "/" ++ name

/-- Whether any ancestor of the path has file name `nix` (any `/`-separated
component equal to `nix`). -/
def hasNixAncestor (p : String) : Bool :=
  (splitOnChar '/' p.toList).any (fun comp => comp == "nix".toList)

/-- The `for dir in path.split(':')` loop of `find_obs_binary`: returns the
`preferred` candidate (breaking on the first nix-wrapped hit) and the first
existing `obs` fallback. -/
def findObsLoop (fsExists : String → Bool) (dirs : List String)
    (fallback : Option String) : Option String × Option String :=
  match dirs with
  | [] => (none, fallback)
  | dir :: rest =>
    if fsExists (pathJoin dir ".obs-wrapped") && hasNixAncestor (pathJoin dir ".obs-wrapped") then
      (some (pathJoin dir ".obs-wrapped"), fallback)
    else
      findObsLoop fsExists rest
        (if fallback.isNone && fsExists (pathJoin dir "obs") then some (pathJoin dir "obs")
         else fallback)

/-- `find_obs_binary`: walks the `PATH` directories and falls back to
`/usr/bin/obs` when nothing is found (including when `PATH` is unset). -/
def find_obs_binary (pathEnv : Option String) (fsExists : String → Bool) : String :=
  match pathEnv with
  | none => "/usr/bin/obs"
  | some path =>
    match findObsLoop fsExists ((splitOnChar ':' path.toList).map (fun cs => ⟨cs⟩)) none with
    | (some preferred, _) => preferred
    | (none, some fb) => fb
    | (none, none) => "/usr/bin/obs"

/-- The UTF-8 bytes of the search string `"libobs-opengl"` (ASCII, so the
bytes are the character codes). -/
def searchBytes : List Nat :=
  "libobs-opengl".toList.map Char.toNat

/-- First position in `l` where `pat` occurs as a contiguous block: the
embedding of `windows(pat.len()).position(|w| w == pat)` for non-empty
`pat`. -/
def findPrefixPos (pat : List Nat) : List Nat → Option Nat
  | [] => none
  | b :: rest =>
    if pat.isPrefixOf (b :: rest) then some 0
    else (findPrefixPos pat rest).map (· + 1)

/-- End of the C string beginning at `start`: the index of the next NUL
byte, or the end of the data. -/
def cStringEnd (raw : List Nat) (start : Nat) : Nat :=
  match (List.drop start raw).findIdx? (· == 0) with
  | some p => start + p
  | none => raw.length

/-- The `if end > start { if let Ok(s) .. if s.contains(".so") { return s } }`
step of the scan: the candidate string accepted at `start`, if any. -/
def takeCandidate (utf8 : List Nat → Option String) (raw : List Nat) (start : Nat) :
    Option String :=
  if start < cStringEnd raw start then
    match utf8 (List.take (cStringEnd raw start - start) (List.drop start raw)) with
    | some s => if strContains s ".so" then some s else none
    | none => none
  else none

/-- The `while idx < raw_strings.len()` scan of `get_linux_opengl_lib_name`:
find the next `"libobs-opengl"` occurrence, accept its C string when it
decodes and contains `".so"`, otherwise continue after the occurrence;
fall back to `"libobs-opengl.so"`. -/
def scanLib (utf8 : List Nat → Option String) (raw : List Nat) (idx : Nat) : String :=
  if h : idx < raw.length then
    match findPrefixPos searchBytes (List.drop idx raw) with
    | none => "libobs-opengl.so"
    | some r =>
      match takeCandidate utf8 raw (idx + r) with
      | some s => s
      | none => scanLib utf8 raw (idx + r + searchBytes.length)
  else "libobs-opengl.so"
termination_by raw.length - idx
decreasing_by
  have hlen : searchBytes.length = 13 := rfl
  omega

/-- `get_linux_opengl_lib_name`: locate the obs binary, fall back to
`"libobs-opengl.so"` if it does not exist, otherwise scan its bytes. -/
def get_linux_opengl_lib_name (pathEnv : Option String) (fsExists : String → Bool)
    (fsRead : String → List Nat) (utf8 : List Nat → Option String) : String :=
  if fsExists (find_obs_binary pathEnv fsExists) then
    scanLib utf8 (fsRead (find_obs_binary pathEnv fsExists)) 0
  else
    "libobs-opengl.so"

/-! ## Theorems -/

/-- C1: For every capability-resolver builder
(`LinuxGeneralScreenCaptureBuilder`, `LinuxGeneralWindowCaptureBuilder`)
holding the non-selected variant, calling a setter that applies only to the
other variant (`set_screen`, `set_advanced`, `set_server`, `set_cut_*` on a
PipeWire/Wayland builder; `set_restore_token` on an X11 builder;
`set_capture_window`, `set_include_border`, `set_exclude_alpha`, `set_cut_*`
on the window builder) returns the builder with all fields unchanged.  The
setters are total functions into the builder type, so no error is ever
returned. -/
theorem wrong_variant_setters_are_noops {X P : Type}
    (setPS : P → String → P) (setXI : X → Int → X) (setXB : X → Bool → X)
    (setXS : X → String → X) (lb : X) (rb : P)
    (token server window : String) (n : Int) (flag : Bool) :
    (LinuxGeneralScreenCaptureBuilder.set_restore_token setPS ⟨.left lb⟩ token
        = (⟨.left lb⟩ : LinuxGeneralScreenCaptureBuilder X P)) ∧
    (LinuxGeneralScreenCaptureBuilder.set_screen setXI ⟨.right rb⟩ n
        = (⟨.right rb⟩ : LinuxGeneralScreenCaptureBuilder X P)) ∧
    (LinuxGeneralScreenCaptureBuilder.set_advanced setXB ⟨.right rb⟩ flag
        = (⟨.right rb⟩ : LinuxGeneralScreenCaptureBuilder X P)) ∧
    (LinuxGeneralScreenCaptureBuilder.set_server setXS ⟨.right rb⟩ server
        = (⟨.right rb⟩ : LinuxGeneralScreenCaptureBuilder X P)) ∧
    (LinuxGeneralScreenCaptureBuilder.set_cut_top setXI ⟨.right rb⟩ n
        = (⟨.right rb⟩ : LinuxGeneralScreenCaptureBuilder X P)) ∧
    (LinuxGeneralScreenCaptureBuilder.set_cut_left setXI ⟨.right rb⟩ n
        = (⟨.right rb⟩ : LinuxGeneralScreenCaptureBuilder X P)) ∧
    (LinuxGeneralScreenCaptureBuilder.set_cut_right setXI ⟨.right rb⟩ n
        = (⟨.right rb⟩ : LinuxGeneralScreenCaptureBuilder X P)) ∧
    (LinuxGeneralScreenCaptureBuilder.set_cut_bot setXI ⟨.right rb⟩ n
        = (⟨.right rb⟩ : LinuxGeneralScreenCaptureBuilder X P)) ∧
    (LinuxGeneralWindowCaptureBuilder.set_restore_token setPS ⟨.left lb⟩ token
        = (⟨.left lb⟩ : LinuxGeneralWindowCaptureBuilder X P)) ∧
    (LinuxGeneralWindowCaptureBuilder.set_capture_window setXS ⟨.right rb⟩ window
        = (⟨.right rb⟩ : LinuxGeneralWindowCaptureBuilder X P)) ∧
    (LinuxGeneralWindowCaptureBuilder.set_cut_top setXI ⟨.right rb⟩ n
        = (⟨.right rb⟩ : LinuxGeneralWindowCaptureBuilder X P)) ∧
    (LinuxGeneralWindowCaptureBuilder.set_cut_left setXI ⟨.right rb⟩ n
        = (⟨.right rb⟩ : LinuxGeneralWindowCaptureBuilder X P)) ∧
    (LinuxGeneralWindowCaptureBuilder.set_cut_right setXI ⟨.right rb⟩ n
        = (⟨.right rb⟩ : LinuxGeneralWindowCaptureBuilder X P)) ∧
    (LinuxGeneralWindowCaptureBuilder.set_cut_bot setXI ⟨.right rb⟩ n
        = (⟨.right rb⟩ : LinuxGeneralWindowCaptureBuilder X P)) ∧
    (LinuxGeneralWindowCaptureBuilder.set_include_border setXB ⟨.right rb⟩ flag
        = (⟨.right rb⟩ : LinuxGeneralWindowCaptureBuilder X P)) ∧
    (LinuxGeneralWindowCaptureBuilder.set_exclude_alpha setXB ⟨.right rb⟩ flag
        = (⟨.right rb⟩ : LinuxGeneralWindowCaptureBuilder X P)) :=
  ⟨rfl, rfl, rfl, rfl, rfl, rfl, rfl, rfl, rfl, rfl, rfl, rfl, rfl, rfl, rfl, rfl⟩

/-- C2: The variant chosen at construction is fixed for the builder's
lifetime.  Every setter of both Linux general capture builders preserves the
`Left`/`Right` tag of `underlying_builder` (setters are pure functions of the
builder alone: no platform re-query appears in their parameters), and
`capture_type_name` is a pure function of the stored tag. -/
theorem builder_variant_is_fixed {X P : Type}
    (setPS : P → String → P) (setXI : X → Int → X) (setXB : X → Bool → X)
    (setXS : X → String → X) (setPB : P → Bool → P)
    (b : LinuxGeneralScreenCaptureBuilder X P)
    (w : LinuxGeneralWindowCaptureBuilder X P)
    (token server window : String) (n : Int) (flag : Bool) :
    ((LinuxGeneralScreenCaptureBuilder.set_restore_token setPS b token).underlying_builder.isLeftTag
        = b.underlying_builder.isLeftTag) ∧
    ((LinuxGeneralScreenCaptureBuilder.set_show_cursor setXB setPB b flag).underlying_builder.isLeftTag
        = b.underlying_builder.isLeftTag) ∧
    ((LinuxGeneralScreenCaptureBuilder.set_screen setXI b n).underlying_builder.isLeftTag
        = b.underlying_builder.isLeftTag) ∧
    ((LinuxGeneralScreenCaptureBuilder.set_advanced setXB b flag).underlying_builder.isLeftTag
        = b.underlying_builder.isLeftTag) ∧
    ((LinuxGeneralScreenCaptureBuilder.set_server setXS b server).underlying_builder.isLeftTag
        = b.underlying_builder.isLeftTag) ∧
    ((LinuxGeneralScreenCaptureBuilder.set_cut_top setXI b n).underlying_builder.isLeftTag
        = b.underlying_builder.isLeftTag) ∧
    ((LinuxGeneralScreenCaptureBuilder.set_cut_left setXI b n).underlying_builder.isLeftTag
        = b.underlying_builder.isLeftTag) ∧
    ((LinuxGeneralScreenCaptureBuilder.set_cut_right setXI b n).underlying_builder.isLeftTag
        = b.underlying_builder.isLeftTag) ∧
    ((LinuxGeneralScreenCaptureBuilder.set_cut_bot setXI b n).underlying_builder.isLeftTag
        = b.underlying_builder.isLeftTag) ∧
    (LinuxGeneralScreenCaptureBuilder.capture_type_name b
        = if b.underlying_builder.isLeftTag then PlatformType.X11 else PlatformType.Wayland) ∧
    ((LinuxGeneralWindowCaptureBuilder.set_restore_token setPS w token).underlying_builder.isLeftTag
        = w.underlying_builder.isLeftTag) ∧
    ((LinuxGeneralWindowCaptureBuilder.set_show_cursor setXB setPB w flag).underlying_builder.isLeftTag
        = w.underlying_builder.isLeftTag) ∧
    ((LinuxGeneralWindowCaptureBuilder.set_capture_window setXS w window).underlying_builder.isLeftTag
        = w.underlying_builder.isLeftTag) ∧
    ((LinuxGeneralWindowCaptureBuilder.set_cut_top setXI w n).underlying_builder.isLeftTag
        = w.underlying_builder.isLeftTag) ∧
    ((LinuxGeneralWindowCaptureBuilder.set_cut_left setXI w n).underlying_builder.isLeftTag
        = w.underlying_builder.isLeftTag) ∧
    ((LinuxGeneralWindowCaptureBuilder.set_cut_right setXI w n).underlying_builder.isLeftTag
        = w.underlying_builder.isLeftTag) ∧
    ((LinuxGeneralWindowCaptureBuilder.set_cut_bot setXI w n).underlying_builder.isLeftTag
        = w.underlying_builder.isLeftTag) ∧
    ((LinuxGeneralWindowCaptureBuilder.set_include_border setXB w flag).underlying_builder.isLeftTag
        = w.underlying_builder.isLeftTag) ∧
    ((LinuxGeneralWindowCaptureBuilder.set_exclude_alpha setXB w flag).underlying_builder.isLeftTag
        = w.underlying_builder.isLeftTag) := by
  obtain ⟨u⟩ := b
  obtain ⟨v⟩ := w
  cases u <;> cases v <;>
    exact ⟨rfl, rfl, rfl, rfl, rfl, rfl, rfl, rfl, rfl, rfl, rfl, rfl, rfl, rfl,
      rfl, rfl, rfl, rfl, rfl⟩

/-- C3: When the platform query reports `PlatformType::Invalid`, construction
of both Linux general capture builders fails with the platform-unsupported
error (realized in the code as `ObsError::PlatformInitError`) and never
succeeds, whatever the underlying builders' constructors would return. -/
theorem new_invalid_platform_fails {X P : Type}
    (newX : Except ObsError X) (newP : Except ObsError P) :
    (LinuxGeneralScreenCaptureBuilder.new PlatformType.Invalid newX newP
        = .error (.PlatformInitError "No platform could be found to create the source on.")) ∧
    ((LinuxGeneralScreenCaptureBuilder.new PlatformType.Invalid newX newP
        : Except ObsError (LinuxGeneralScreenCaptureBuilder X P)).isOk = false) ∧
    (LinuxGeneralWindowCaptureBuilder.new PlatformType.Invalid newX newP
        = .error (.PlatformInitError "No platform could be found to create the source on.")) ∧
    ((LinuxGeneralWindowCaptureBuilder.new PlatformType.Invalid newX newP
        : Except ObsError (LinuxGeneralWindowCaptureBuilder X P)).isOk = false) :=
  ⟨rfl, rfl, rfl, rfl⟩

/-- C4: If the DPI query reports a DPI-unaware executor thread, setting the
DXGI method through the updater and building a builder whose stored method
is DXGI both fail with `InvalidOperation` — without recording the setting
and without running the source-creation step (the result is the error for
every possible `buildSource`).  If the thread is DPI-aware, or the method is
not DXGI, both operations proceed without this error. -/
theorem dxgi_requires_dpi_awareness {S : Type} (u : MonitorCaptureSourceUpdater)
    (b : MonitorCaptureSourceBuilder) (buildSource : Except ObsError S)
    (method : ObsDisplayCaptureMethod) (unaware : Bool) :
    (MonitorCaptureSourceUpdater.set_capture_method (.ok true) u
        ObsDisplayCaptureMethod.MethodDXGI
      = .error (.InvalidOperation
          "Cannot use DXGI capture method when the current thread is DPI unaware.")) ∧
    (b.capture_method = some ObsDisplayCaptureMethod.MethodDXGI →
      b.build (.ok true) buildSource
        = .error (.InvalidOperation
            "Cannot use DXGI capture method when the current thread is DPI unaware.")) ∧
    (MonitorCaptureSourceUpdater.set_capture_method (.ok false) u method
        = .ok { settings := u.settings ++ [("method", method.toI64)] }) ∧
    (b.build (.ok false) buildSource = buildSource) ∧
    (method ≠ ObsDisplayCaptureMethod.MethodDXGI →
      MonitorCaptureSourceUpdater.set_capture_method (.ok unaware) u method
        = .ok { settings := u.settings ++ [("method", method.toI64)] }) ∧
    (b.capture_method ≠ some ObsDisplayCaptureMethod.MethodDXGI →
      b.build (.ok unaware) buildSource = buildSource) := by
  refine ⟨rfl, fun h => ?_, rfl, rfl, fun h => ?_, fun h => ?_⟩
  · simp [MonitorCaptureSourceBuilder.build, h]
  · simp [MonitorCaptureSourceUpdater.set_capture_method, h]
  · simp [MonitorCaptureSourceBuilder.build, h]

/-- Closed witness for `dxgi_requires_dpi_awareness`, at the updater with no
recorded settings, a builder holding DXGI, `buildSource = .ok ()`,
`method = MethodWgc` and a DPI-unaware thread. -/
theorem dxgi_requires_dpi_awareness_witness :
    (MonitorCaptureSourceUpdater.set_capture_method (.ok true) ⟨[]⟩
        ObsDisplayCaptureMethod.MethodDXGI
      = .error (.InvalidOperation
          "Cannot use DXGI capture method when the current thread is DPI unaware.")) ∧
    (MonitorCaptureSourceBuilder.build ⟨some ObsDisplayCaptureMethod.MethodDXGI⟩
        (.ok true) (.ok ())
      = .error (.InvalidOperation
          "Cannot use DXGI capture method when the current thread is DPI unaware.")) ∧
    (MonitorCaptureSourceUpdater.set_capture_method (.ok true) ⟨[]⟩
        ObsDisplayCaptureMethod.MethodWgc
      = .ok ⟨[("method", ObsDisplayCaptureMethod.toI64 ObsDisplayCaptureMethod.MethodWgc)]⟩) ∧
    (MonitorCaptureSourceBuilder.build ⟨some ObsDisplayCaptureMethod.MethodWgc⟩
        (.ok true) (.ok ())
      = .ok ()) :=
  have h := dxgi_requires_dpi_awareness (S := Unit) ⟨[]⟩
    ⟨some ObsDisplayCaptureMethod.MethodDXGI⟩ (.ok ()) ObsDisplayCaptureMethod.MethodWgc true
  have h2 := dxgi_requires_dpi_awareness (S := Unit) ⟨[]⟩
    ⟨some ObsDisplayCaptureMethod.MethodWgc⟩ (.ok ()) ObsDisplayCaptureMethod.MethodWgc true
  ⟨h.1, h.2.1 rfl, (h.2.2.2.2.1) (by decide),
    (h2.2.2.2.2.2) (by decide)⟩

/-- Helper: once the process-wide flag is set, every further call observes
it, performs no set, and returns `Ok` with a restore-free guard. -/
theorem runEnableCalls_flag_already_set (ps : List (Option Int)) :
    runEnableCalls ps true = (ps.map (fun _ => dpiAlreadySetOutcome), true) := by
  induction ps with
  | nil => rfl
  | cons q qs ih =>
    simp [runEnableCalls, enable_dpi_awareness, ih, dpiAlreadySetOutcome]

/-- C5: Starting from an unset flag, a serialized sequence of calls to
`enable_dpi_awareness` performs the `SetThreadDpiAwarenessContext` action
exactly once: the first call performs it and returns `Ok`, every subsequent
call observes the flag, performs no further set, and returns `Ok` with a
guard whose restore step (`unset_dpi_awareness`) is a no-op. -/
theorem dpi_awareness_set_exactly_once (p : Option Int) (ps : List (Option Int)) :
    runEnableCalls (p :: ps) false
      = ({ result := .ok ⟨p⟩, performedSet := true }
          :: ps.map (fun _ => dpiAlreadySetOutcome), true) ∧
    (runEnableCalls (p :: ps) false).1.countP (fun o => o.performedSet) = 1 ∧
    unset_dpi_awareness ⟨none⟩ = false := by
  have hrest := runEnableCalls_flag_already_set ps
  refine ⟨?_, ?_, rfl⟩
  · simp [runEnableCalls, enable_dpi_awareness, hrest]
  · simp [runEnableCalls, enable_dpi_awareness, hrest, List.countP_cons,
      List.countP_map, dpiAlreadySetOutcome, Function.comp]

/-- Amended C6: in `Drop for LinuxGlibLoop`, a worker-thread panic surfacing
from `join` is caught and logged only when the dropping thread is itself
already panicking (avoiding a double-panic abort); when the dropping thread
is not panicking, the join result is unwrapped and the worker's panic is
re-raised from the drop.  A successful join or an absent handle never
panics. -/
theorem glib_drop_panic_policy (isRunning : Bool) (e : String) :
    ((linuxGlibLoopDrop isRunning (some (.error e)) true).loggedJoinPanic = true ∧
     (linuxGlibLoopDrop isRunning (some (.error e)) true).propagatedPanic = none) ∧
    ((linuxGlibLoopDrop isRunning (some (.error e)) false).loggedJoinPanic = false ∧
     (linuxGlibLoopDrop isRunning (some (.error e)) false).propagatedPanic = some e) ∧
    (∀ tp : Bool, (linuxGlibLoopDrop isRunning (some (.ok ())) tp).propagatedPanic = none) ∧
    (∀ tp : Bool, (linuxGlibLoopDrop isRunning none tp).propagatedPanic = none) := by
  refine ⟨⟨rfl, rfl⟩, ⟨rfl, rfl⟩, fun tp => ?_, fun tp => rfl⟩
  cases tp <;> rfl

/-- C6 counterexample: when the running loop's drop joins a panicked worker
thread while the dropping thread is not itself panicking, the panic is not
logged and is propagated (`r.unwrap()`), refuting "always caught and logged
and never allowed to propagate, on every exit path". -/
theorem glib_drop_panic_counterexample :
    (linuxGlibLoopDrop true (some (.error "worker thread panicked")) false).propagatedPanic
        = some "worker thread panicked" ∧
    (linuxGlibLoopDrop true (some (.error "worker thread panicked")) false).loggedJoinPanic
        = false :=
  ⟨rfl, rfl⟩

/-- C7: `ObsFader::new` and `ObsVolmeter::new` return the `NullPointer`
error when the engine yields a null pointer and do not produce a wrapper;
when the engine returns a non-null pointer they return `Ok` with a wrapper
holding exactly that pointer (and a failed executor submission is
propagated unchanged). -/
theorem fader_volmeter_null_handling (p : Nat) (e : ObsError) :
    (p = 0 →
      ObsFader.new (.ok p) = .error (.NullPointer (some "Failed to create fader")) ∧
      ObsVolmeter.new (.ok p) = .error (.NullPointer (some "Failed to create volmeter"))) ∧
    (p ≠ 0 →
      ObsFader.new (.ok p) = .ok ⟨p⟩ ∧ ObsVolmeter.new (.ok p) = .ok ⟨p⟩) ∧
    (ObsFader.new (.error e) = .error e ∧ ObsVolmeter.new (.error e) = .error e) := by
  refine ⟨fun h => ?_, fun h => ?_, rfl, rfl⟩
  · subst h; exact ⟨rfl, rfl⟩
  · constructor <;> simp [ObsFader.new, ObsVolmeter.new, h]

/-- Closed witness for `fader_volmeter_null_handling` at the null pointer
`0` and the non-null pointer `1`. -/
theorem fader_volmeter_null_handling_witness :
    (ObsFader.new (.ok 0) = .error (.NullPointer (some "Failed to create fader")) ∧
     ObsVolmeter.new (.ok 0) = .error (.NullPointer (some "Failed to create volmeter"))) ∧
    (ObsFader.new (.ok 1) = .ok ⟨1⟩ ∧ ObsVolmeter.new (.ok 1) = .ok ⟨1⟩) :=
  ⟨(fader_volmeter_null_handling 0 (.OtherError "")).1 rfl,
   (fader_volmeter_null_handling 1 (.OtherError "")).2.1 (by decide)⟩

/-- C8: `wl_proxy_get_display` reports an `Err` (the loader's error) when
both `libwayland-client.so` and `libwayland-client.so.0` fail to open or
when the `wl_proxy_get_display` symbol is absent, and calls the resolved
symbol only when the lookup succeeded (the `Ok` result is exactly the
symbol applied to the proxy).  The function is total, so no input makes it
crash. -/
theorem wayland_loader_fails_gracefully {Lib Sym : Type} (env : WaylandEnv Lib Sym)
    (proxy : Int) (e1 e2 e3 : String) (lib : Lib) (f : Sym) :
    (env.loadLibrary "libwayland-client.so" = .error e1 →
     env.loadLibrary "libwayland-client.so.0" = .error e2 →
     wl_proxy_get_display env proxy = .error e2) ∧
    (env.loadLibrary "libwayland-client.so" = .ok lib →
     env.getSymbol lib "wl_proxy_get_display" = .error e3 →
     wl_proxy_get_display env proxy = .error e3) ∧
    (env.loadLibrary "libwayland-client.so" = .ok lib →
     env.getSymbol lib "wl_proxy_get_display" = .ok f →
     wl_proxy_get_display env proxy = .ok (env.callSym f proxy)) ∧
    (env.loadLibrary "libwayland-client.so" = .error e1 →
     env.loadLibrary "libwayland-client.so.0" = .ok lib →
     env.getSymbol lib "wl_proxy_get_display" = .ok f →
     wl_proxy_get_display env proxy = .ok (env.callSym f proxy)) := by
  refine ⟨fun h1 h2 => ?_, fun h1 h3 => ?_, fun h1 h3 => ?_, fun h1 h2 h3 => ?_⟩
  · simp [wl_proxy_get_display, h1, h2]
  · simp [wl_proxy_get_display, h1, h3]
  · simp [wl_proxy_get_display, h1, h3]
  · simp [wl_proxy_get_display, h1, h2, h3]

/-- Closed witness for `wayland_loader_fails_gracefully`: four concrete
loader environments covering both load failures, a missing symbol, a
resolved symbol, and the `.so.0` fallback. -/
theorem wayland_loader_fails_gracefully_witness :
    wl_proxy_get_display
        (⟨fun _ => .error "missing", fun _ _ => .error "nosym", fun _ p => p⟩ :
          WaylandEnv Unit Unit) 5 = .error "missing" ∧
    wl_proxy_get_display
        (⟨fun _ => .ok (), fun _ _ => .error "nosym", fun _ p => p⟩ :
          WaylandEnv Unit Unit) 5 = .error "nosym" ∧
    wl_proxy_get_display
        (⟨fun _ => .ok (), fun _ _ => .ok (), fun _ p => p⟩ :
          WaylandEnv Unit Unit) 5 = .ok 5 ∧
    wl_proxy_get_display
        (⟨fun n => if n = "libwayland-client.so" then .error "missing" else .ok (),
          fun _ _ => .ok (), fun _ p => p⟩ : WaylandEnv Unit Unit) 5 = .ok 5 :=
  ⟨(wayland_loader_fails_gracefully _ 5 "missing" "missing" "nosym" () ()).1 rfl rfl,
   (wayland_loader_fails_gracefully _ 5 "e" "e" "nosym" () ()).2.1 rfl rfl,
   (wayland_loader_fails_gracefully _ 5 "e" "e" "e" () ()).2.2.1 rfl rfl,
   (wayland_loader_fails_gracefully _ 5 "missing" "e" "e" () ()).2.2.2 rfl rfl rfl⟩

/-- C9: The u32-to-enum conversions for `ObsBalanceType` and
`ObsMonitoringType` are total left inverses of the enum-to-u32 casts, and
every u32 value matching no variant maps to the designated default
(`SineLaw`, `None`). -/
theorem enum_u32_conversions :
    (∀ v : ObsBalanceType, ObsBalanceType.fromU32 v.toU32 = v) ∧
    (∀ v : ObsMonitoringType, ObsMonitoringType.fromU32 v.toU32 = v) ∧
    (∀ n : Nat, n ≠ OBS_BALANCE_TYPE_SINE_LAW → n ≠ OBS_BALANCE_TYPE_SQUARE_LAW →
      n ≠ OBS_BALANCE_TYPE_LINEAR → ObsBalanceType.fromU32 n = ObsBalanceType.SineLaw) ∧
    (∀ n : Nat, n ≠ OBS_MONITORING_TYPE_NONE → n ≠ OBS_MONITORING_TYPE_MONITOR_ONLY →
      n ≠ OBS_MONITORING_TYPE_MONITOR_AND_OUTPUT →
      ObsMonitoringType.fromU32 n = ObsMonitoringType.None) := by
  refine ⟨fun v => by cases v <;> rfl, fun v => by cases v <;> rfl,
    fun n h0 h1 h2 => ?_, fun n h0 h1 h2 => ?_⟩
  · simp only [OBS_BALANCE_TYPE_SINE_LAW, OBS_BALANCE_TYPE_SQUARE_LAW,
      OBS_BALANCE_TYPE_LINEAR] at h0 h1 h2
    simp [ObsBalanceType.fromU32, OBS_BALANCE_TYPE_SINE_LAW, OBS_BALANCE_TYPE_SQUARE_LAW,
      OBS_BALANCE_TYPE_LINEAR, h0, h1, h2]
  · simp only [OBS_MONITORING_TYPE_NONE, OBS_MONITORING_TYPE_MONITOR_ONLY,
      OBS_MONITORING_TYPE_MONITOR_AND_OUTPUT] at h0 h1 h2
    simp [ObsMonitoringType.fromU32, OBS_MONITORING_TYPE_NONE,
      OBS_MONITORING_TYPE_MONITOR_ONLY, OBS_MONITORING_TYPE_MONITOR_AND_OUTPUT, h0, h1, h2]

/-- Closed witness for `enum_u32_conversions` at the unmatched value 7. -/
theorem enum_u32_conversions_witness :
    ObsBalanceType.fromU32 7 = ObsBalanceType.SineLaw ∧
    ObsMonitoringType.fromU32 7 = ObsMonitoringType.None :=
  ⟨enum_u32_conversions.2.2.1 7 (by decide) (by decide) (by decide),
   enum_u32_conversions.2.2.2 7 (by decide) (by decide) (by decide)⟩

/-- Helper: a candidate accepted by the scan step contains `".so"` (the
scan only returns a decoded C string after checking exactly that). -/
theorem takeCandidate_so (utf8 : List Nat → Option String) (raw : List Nat)
    (start : Nat) (s : String) (h : takeCandidate utf8 raw start = some s) :
    strContains s ".so" = true := by
  unfold takeCandidate at h
  split at h
  · split at h
    · split at h
      · exact Option.some.inj h ▸ (by assumption)
      · exact absurd h (by simp)
    · exact absurd h (by simp)
  · exact absurd h (by simp)

/-- Helper: every result of the byte scan contains `".so"` — an accepted
candidate by `takeCandidate_so`, and the fallback `"libobs-opengl.so"`
literally. -/
theorem scanLib_so (utf8 : List Nat → Option String) (raw : List Nat) (idx : Nat) :
    strContains (scanLib utf8 raw idx) ".so" = true := by
  refine scanLib.induct utf8 raw (fun i => strContains (scanLib utf8 raw i) ".so" = true)
    ?_ ?_ ?_ ?_ idx
  · intro x hx hfind
    rw [scanLib, dif_pos hx]
    simp only [hfind]
    decide
  · intro x hx r hfind s hcand
    rw [scanLib, dif_pos hx]
    simp only [hfind, hcand]
    exact takeCandidate_so utf8 raw (x + r) s hcand
  · intro x hx r hfind hcand ih
    rw [scanLib, dif_pos hx]
    simp only [hfind, hcand]
    exact ih
  · intro x hx
    rw [scanLib, dif_neg hx]
    decide

/-- C10: `get_linux_opengl_lib_name` is total and its result always
contains `".so"`, for every `PATH` environment, filesystem and byte content
of the discovered obs binary and every behaviour of the UTF-8 decoder; and
`find_obs_binary` always returns a path, falling back to `"/usr/bin/obs"`
when `PATH` is unset or its directories yield no candidate. -/
theorem opengl_lib_name_always_so (pathEnv : Option String) (fsExists : String → Bool)
    (fsRead : String → List Nat) (utf8 : List Nat → Option String) (path : String) :
    strContains (get_linux_opengl_lib_name pathEnv fsExists fsRead utf8) ".so" = true ∧
    find_obs_binary none fsExists = "/usr/bin/obs" ∧
    (findObsLoop fsExists ((splitOnChar ':' path.toList).map (fun cs => ⟨cs⟩)) none
        = (none, none) →
      find_obs_binary (some path) fsExists = "/usr/bin/obs") := by
  refine ⟨?_, rfl, fun h => ?_⟩
  · unfold get_linux_opengl_lib_name
    split
    · exact scanLib_so _ _ _
    · decide
  · simp only [find_obs_binary]
    rw [h]

/-- Closed witness for `opengl_lib_name_always_so`: an empty filesystem,
where the scan falls back and `PATH` yields no candidate. -/
theorem opengl_lib_name_always_so_witness :
    strContains (get_linux_opengl_lib_name (some "/usr/bin") (fun _ => false)
        (fun _ => []) (fun _ => none)) ".so" = true ∧
    find_obs_binary none (fun _ => false) = "/usr/bin/obs" ∧
    find_obs_binary (some "/usr/bin") (fun _ => false) = "/usr/bin/obs" :=
  have h := opengl_lib_name_always_so (some "/usr/bin") (fun _ => false)
    (fun _ => []) (fun _ => none) "/usr/bin"
  ⟨h.1, h.2.1, h.2.2 (by decide)⟩

end LibObs
